import Mathlib

/-!
Shallow embedding of the client-side controllers of the sigua.io site
(`static/js/download.js`, `static/js/spa.js`, `static/js/navigation.js`).

The DOM and network effects of the download flow are modelled as an explicit
trace of `Event`s; JSON bodies keep JavaScript truthiness semantics so that
the `!data.webhost` / `data.code && data.msg` branches of the source are
reproduced exactly.
-/

/-- A JavaScript value as it appears in the JSON bodies the download flow
inspects. Only the shapes the code can branch on are needed. -/
inductive JsValue where
  | vNull
  | vBool (b : Bool)
  | vNum (n : Int)
  | vStr (s : String)
deriving DecidableEq, Repr

/-- JavaScript truthiness of a value (`if (x)`), as used by
`!data1.webhost`, `data1.code && data1.msg`, `!data2.go` in download.js. -/
def JsValue.truthy : JsValue → Bool
  | .vNull => false
  | .vBool b => b
  | .vNum n => n != 0
  | .vStr s => s ≠ ""

/-- JavaScript string coercion, used when a value is interpolated into a
notification message or passed to `fetch`. -/
def JsValue.jsToString : JsValue → String
  | .vNull => "null"
  | .vBool b => if b then "true" else "false"
  | .vNum n => toString n
  | .vStr s => s

/-- Truthiness of a possibly-absent object field (`undefined` is falsy). -/
def truthyOpt : Option JsValue → Bool
  | none => false
  | some v => v.truthy

/-- String coercion of a possibly-absent field (`undefined` coerces to
the string "undefined"). -/
def jsToStringOpt : Option JsValue → String
  | none => "undefined"
  | some v => v.jsToString

/-- A parsed JSON response body, restricted to the fields download.js reads.
`none` models an absent field. -/
structure JsonBody where
  webhost : Option JsValue := none
  code : Option JsValue := none
  msg : Option JsValue := none
  go : Option JsValue := none
deriving DecidableEq, Repr

/-- Outcome of one `fetch` call: the promise rejects (network failure), or a
response arrives with an HTTP status and a body that either parses as JSON
(`some`) or makes `response.json()` throw (`none`). -/
inductive FetchResult where
  | networkFailure
  | success (status : Nat) (body : Option JsonBody)
deriving DecidableEq, Repr

/-- Embeds `Response.ok`: status in the 2xx range. -/
def respOk (status : Nat) : Bool := 200 ≤ status && status < 300

/-- Observable effects of the download flow, in order of occurrence:
busy-state changes on the `.download-btn` controls, HTTP requests (url plus
query parameters), user notifications (message and kind), and the synthetic
anchor click that triggers a file download. -/
inductive Event where
  | busy (b : Bool)
  | request (url : String) (query : List (String × String))
  | notif (message : String) (kind : String)
  | fileDownload (url : String)
deriving DecidableEq, Repr

/-- The browser environment the download flow runs in: the current hostname,
whether the user agent matches `/Mobile|Android|iPhone|iPad/i`, and the
network's response to each request (url and query parameters). -/
structure Env where
  hostname : String
  userAgentMobile : Bool
  fetch : String → List (String × String) → FetchResult

/-- Embeds `DownloadManager.apiBaseUrl` (download.js line 8). -/
def apiBaseUrl : String := "https://a.hkdownload.com/get.php"

/-- Embeds `DownloadManager.detectDeviceType` (download.js lines 77-79). -/
def detectDeviceType (env : Env) : String :=
  if env.userAgentMobile then "mobile" else "pc"

/-- The generic error message of `handleDownload`'s catch block
(download.js line 46): "download busy, error code: 500". -/
def genericBusyMsg : String := "下载繁忙，错误代码:500"

/-- The generic error message of `handleOriginalDownload`'s catch block
(download.js line 67): "sorry, the site has expired, renew quickly". -/
def expiredSiteMsg : String := "抱歉，网站过期啦，赶紧续费"

/-- The success message of `downloadFile` (download.js line 142):
"download has started". -/
def downloadStartedMsg : String := "下载已开始"

/-- Protocol-violation message thrown when hop 1 lacked `webhost` and no
truthy `code`/`msg` pair was present (download.js line 106):
"no valid download address obtained". -/
def noValidAddrMsg : String := "未获取到有效的下载地址"

/-- Protocol-violation message thrown when hop 2 lacked `go` and no truthy
`code`/`msg` pair was present (download.js line 122):
"no final download address obtained". -/
def noFinalAddrMsg : String := "未获取到最终下载地址"

/-- Embeds `DownloadManager.getDownloadUrl` (download.js lines 86-126). Returns the
events it emits together with its result: `.error e` models a thrown
exception with message `e`, `.ok none` the `return null` after a
server-signaled failure, `.ok (some v)` the `return data2.go`. -/
def getDownloadUrl (env : Env) (deviceType : String) :
    List Event × Except String (Option JsValue) :=
  let query := [("type", deviceType), ("site", env.hostname)]
  let ev1 := Event.request apiBaseUrl query
  match env.fetch apiBaseUrl query with
  | .networkFailure => ([ev1], .error "TypeError: Failed to fetch")
  | .success status1 body1 =>
    if respOk status1 = false then
      ([ev1], .error ("HTTP error! status: " ++ toString status1))
    else
      match body1 with
      | none => ([ev1], .error "SyntaxError: invalid JSON")
      | some data1 =>
        if truthyOpt data1.webhost = false then
          if truthyOpt data1.code && truthyOpt data1.msg then
            ([ev1, Event.notif (jsToStringOpt data1.msg) "error"], .ok none)
          else
            ([ev1], .error noValidAddrMsg)
        else
          let webhostUrl := jsToStringOpt data1.webhost
          let ev2 := Event.request webhostUrl []
          match env.fetch webhostUrl [] with
          | .networkFailure => ([ev1, ev2], .error "TypeError: Failed to fetch")
          | .success status2 body2 =>
            if respOk status2 = false then
              ([ev1, ev2], .error ("HTTP error! status: " ++ toString status2))
            else
              match body2 with
              | none => ([ev1, ev2], .error "SyntaxError: invalid JSON")
              | some data2 =>
                if truthyOpt data2.go = false then
                  if truthyOpt data2.code && truthyOpt data2.msg then
                    ([ev1, ev2, Event.notif (jsToStringOpt data2.msg) "error"],
                     .ok none)
                  else
                    ([ev1, ev2], .error noFinalAddrMsg)
                else
                  ([ev1, ev2], .ok data2.go)

/-- Embeds `DownloadManager.downloadFile` (download.js lines 132-143): synthesize a
transient anchor click, then show the success notification. -/
def downloadFile (url : String) : List Event :=
  [Event.fileDownload url, Event.notif downloadStartedMsg "success"]

/-- Shared shape of both entry points: `showLoadingState` first, then the
try-block (`getDownloadUrl`, and `downloadFile` on a truthy URL), the catch
block converting any thrown error into `catchMsg`, and the finally block
clearing the busy state. -/
def downloadFlow (env : Env) (deviceType : String) (catchMsg : String) :
    List Event :=
  let r := getDownloadUrl env deviceType
  Event.busy true ::
    (r.1 ++
      (match r.2 with
       | .ok (some v) => if v.truthy then downloadFile v.jsToString else []
       | .ok none => []
       | .error _ => [Event.notif catchMsg "error"]) ++
      [Event.busy false])

/-- Embeds `DownloadManager.handleDownload` (download.js lines 36-50). -/
def handleDownload (env : Env) (deviceType : String) : List Event :=
  downloadFlow env deviceType genericBusyMsg

/-- Embeds `DownloadManager.handleOriginalDownload` (download.js lines 55-71):
auto-detect the device type, then run the same flow with its own catch
message. -/
def handleOriginalDownload (env : Env) : List Event :=
  downloadFlow env (detectDeviceType env) expiredSiteMsg

instance {α β : Type} [DecidableEq α] [DecidableEq β] :
    DecidableEq (Except α β) := fun x y =>
  match x, y with
  | .error a, .error b =>
    if h : a = b then isTrue (by rw [h]) else isFalse (by simp [h])
  | .error _, .ok _ => isFalse (by simp)
  | .ok _, .error _ => isFalse (by simp)
  | .ok a, .ok b =>
    if h : a = b then isTrue (by rw [h]) else isFalse (by simp [h])

/-- An environment whose every fetch fails at the network level. -/
def envAllFail : Env :=
  { hostname := "sigua.io", userAgentMobile := false,
    fetch := fun _ _ => .networkFailure }

/-- A hop-1 body carrying a code field whose value is 0 (falsy) alongside a
msg field, with no webhost. -/
def bodyCodeZero : JsonBody :=
  { code := some (.vNum 0), msg := some (.vStr "m") }

/-- An environment whose hop-1 response is 2xx with body `bodyCodeZero`. -/
def envCodeZero : Env :=
  { hostname := "sigua.io", userAgentMobile := false,
    fetch := fun u _ =>
      if u = apiBaseUrl then .success 200 (some bodyCodeZero)
      else .networkFailure }

/-- An environment whose hop-1 response is a server-signaled failure with a
truthy code and msg. -/
def envServerMsg : Env :=
  { hostname := "sigua.io", userAgentMobile := false,
    fetch := fun u _ =>
      if u = apiBaseUrl then
        .success 200 (some { code := some (.vNum 1),
                             msg := some (.vStr "站点维护中") })
      else .networkFailure }

/-! ## SPAManager (spa.js) -/

/-- One browser history entry: the URL fragment of that entry (including the
leading `#`, empty when absent) and the state object pushed for it (`some s`
models `{ section: s }`, `none` models a null state, as on the initial-load
entry, which no `pushState` created). -/
structure HistEntry where
  hash : String
  state : Option String
deriving DecidableEq, Repr

/-- Combined state of the SPAManager and the browser surfaces it touches:
the `currentSection` field, which `.section` element carries
`section--active`, which nav link carries `nav__link--active`, and the
history stack (entries behind the current one, the current entry, entries
ahead of it). -/
structure SPAState where
  currentSection : String
  activeSection : Option String
  activeNav : Option String
  back : List HistEntry
  current : HistEntry
  fwd : List HistEntry
deriving DecidableEq, Repr

/-- Embeds `this.sections` (spa.js line 9): the fixed section-identifier set. -/
def sections : List String := ["home", "features", "faq", "download"]

/-- Modelled from the spec: the static page contains one `.section` element
per identifier in the fixed section set (the HTML pages of the repository
are not under src/). `document.getElementById(section)` succeeds exactly
for these. -/
def domSections : List String := sections

/-- Embeds `SPAManager.showSection` (spa.js lines 68-94): remove `section--active`
from every section, add it to the target if that element exists, and record
`currentSection`. The `animate` flag only affects transition styling and is
carried for fidelity. -/
def showSection (st : SPAState) (s : String) (animate : Bool := true) :
    SPAState :=
  let _ := animate
  { st with
    activeSection := if s ∈ domSections then some s else none,
    currentSection := s }

/-- Embeds `SPAManager.updateURL` (spa.js lines 100-104): set the fragment and push
a new history entry carrying `{ section }` (a push, not a replace; the
forward list is discarded). -/
def updateURL (st : SPAState) (s : String) : SPAState :=
  { st with
    back := st.back ++ [st.current],
    current := { hash := "#" ++ s, state := some s },
    fwd := [] }

/-- Embeds `SPAManager.updateActiveNav` (spa.js lines 110-119): remove the active
class from every nav link, add it to the link whose `data-section` matches,
if present. Modelled from the spec: one nav link exists per section
identifier. -/
def updateActiveNav (st : SPAState) (s : String) : SPAState :=
  { st with activeNav := if s ∈ sections then some s else none }

/-- Embeds `SPAManager.navigateToSection` (spa.js lines 55-61): guarded on
membership in the fixed section set; otherwise nothing happens. -/
def navigateToSection (st : SPAState) (s : String) : SPAState :=
  if s ∈ sections then
    updateActiveNav (updateURL (showSection st s true) s) s
  else st

/-- Browser-back plus the `popstate` handler (spa.js lines 30-34): the
browser moves to the previous entry (never pushing), fires `popstate`, and
the handler calls `showSection(e.state.section, false)` only when `e.state`
and `e.state.section` are both truthy. -/
def goBack (st : SPAState) : SPAState :=
  match st.back.getLast? with
  | none => st
  | some prev =>
    let st' := { st with
      back := st.back.dropLast,
      current := prev,
      fwd := st.current :: st.fwd }
    match prev.state with
    | some s => if s = "" then st' else showSection st' s false
    | none => st'

/-- Embeds `SPAManager.handleInitialRoute` (spa.js lines 124-132): derive the
section from `location.hash` minus its `#`; a truthy hash in the section
set activates it, anything else only highlights the home nav link. -/
def handleInitialRoute (st : SPAState) : SPAState :=
  let hash := st.current.hash.drop 1
  if hash ≠ "" ∧ hash ∈ sections then
    updateActiveNav (showSection st hash false) hash
  else
    updateActiveNav st "home"

/-- Modelled from the spec: page state right after initial load with URL
fragment `frag` — the static HTML (not under src/) marks the home section
active, and the initial history entry carries no pushed state. -/
def initialState (frag : String) : SPAState :=
  { currentSection := "home",
    activeSection := some "home",
    activeNav := none,
    back := [],
    current := { hash := frag, state := none },
    fwd := [] }

/-! ## FAQ accordion (spa.js `setupFAQ`) -/

/-- Embeds `SPAManager.setupFAQ`'s click handler (spa.js lines 145-162) acting on
the open-flags of the FAQ items: read whether item `i` is open, close every
item, and re-open item `i` only if it was closed. -/
def faqClick (st : List Bool) (i : Nat) : List Bool :=
  let isOpen := st.getD i false
  let closed := st.map (fun _ => false)
  if isOpen then closed else closed.set i true

/-- Number of open FAQ items. -/
def openCount (st : List Bool) : Nat := st.count true

/-! ## NavigationManager (navigation.js) -/

/-- State of the mobile navigation panel and the body scroll lock: the
toggle button's `active` class, the nav's `hidden` and `nav--open` classes,
the `isNavOpen` field, and `document.body.style.overflow`. -/
structure NavState where
  navToggleActive : Bool
  navHidden : Bool
  navOpenClass : Bool
  isNavOpen : Bool
  bodyOverflow : String
deriving DecidableEq, Repr

/-- Embeds `NavigationManager.openNavigation` (navigation.js lines 65-75). -/
def openNavigation (st : NavState) : NavState :=
  { st with
    navToggleActive := true,
    navHidden := false,
    isNavOpen := true,
    bodyOverflow := "hidden",
    navOpenClass := true }

/-- Embeds `NavigationManager.closeNavigation` (navigation.js lines 80-90). -/
def closeNavigation (st : NavState) : NavState :=
  { st with
    navToggleActive := false,
    navHidden := true,
    isNavOpen := false,
    bodyOverflow := "",
    navOpenClass := false }

/-- Embeds `NavigationManager.toggleNavigation` (navigation.js lines 54-60). -/
def toggleNavigation (st : NavState) : NavState :=
  if st.isNavOpen then closeNavigation st else openNavigation st

/-- The nav panel is visible: not `hidden` and carrying `nav--open`. -/
def panelVisible (st : NavState) : Bool :=
  !st.navHidden && st.navOpenClass

/-- Background scroll is locked. -/
def scrollLocked (st : NavState) : Bool :=
  st.bodyOverflow = "hidden"

/-- The NavigationState invariant of the spec: `isOpen` is true iff the
panel is visible and page scroll is locked. -/
def navInvariant (st : NavState) : Prop :=
  st.isNavOpen = true ↔ (panelVisible st = true ∧ scrollLocked st = true)

instance (st : NavState) : Decidable (navInvariant st) := by
  unfold navInvariant; infer_instance

/-! ## Claim theorems -/

lemma navInvariant_open (st : NavState) : navInvariant (openNavigation st) := by
  simp [navInvariant, openNavigation, panelVisible, scrollLocked]

lemma navInvariant_close (st : NavState) : navInvariant (closeNavigation st) := by
  simp [navInvariant, closeNavigation, panelVisible, scrollLocked]

/-- C9: after every toggle, open, and close operation, `isNavOpen` is true
iff the nav panel is visible and page scroll is locked (opening locks
background scroll, closing restores it), from any prior state. These three
operations are the only writers of the navigation state in navigation.js. -/
theorem C9_nav_invariant (st : NavState) :
    navInvariant (openNavigation st) ∧ navInvariant (closeNavigation st) ∧
    navInvariant (toggleNavigation st) := by
  refine ⟨navInvariant_open st, navInvariant_close st, ?_⟩
  unfold toggleNavigation
  by_cases h : st.isNavOpen <;> simp [h, navInvariant_open, navInvariant_close]

/-- C10: calling `navigateToSection` with an identifier outside the fixed
section set is a silent no-op: the whole SPA/browser state (active section,
nav highlighting, URL fragment, history stack) is returned unchanged and no
error is raised. -/
theorem C10_navigate_invalid_noop (st : SPAState) (s : String)
    (h : s ∉ sections) : navigateToSection st s = st := by
  unfold navigateToSection
  rw [if_neg h]

/-- Witness for C10 at a concrete state and the identifier
"doesnotexist". -/
theorem C10_navigate_invalid_noop_witness :
    navigateToSection (initialState "") "doesnotexist" = initialState "" :=
  C10_navigate_invalid_noop (initialState "") "doesnotexist" (by decide)

/-- C7: on initial page load with an unrecognized URL fragment or an absent
fragment, the home section ends up carrying the active marker (from the
static page, which `handleInitialRoute` leaves in place on this branch) and
the home nav link is highlighted — not a blank or error state. -/
theorem C7_initial_route_fallback (frag : String)
    (h : frag = "" ∨ frag.drop 1 ∉ sections) :
    (handleInitialRoute (initialState frag)).activeSection = some "home" ∧
    (handleInitialRoute (initialState frag)).activeNav = some "home" := by
  have hcond : ¬((frag.drop 1) ≠ "" ∧ (frag.drop 1) ∈ sections) := by
    rcases h with rfl | h
    · intro hc
      exact hc.1 rfl
    · intro hc
      exact h hc.2
  simp only [handleInitialRoute, initialState]
  rw [if_neg hcond]
  exact ⟨rfl, by simp [updateActiveNav, sections]⟩

/-- Witness for C7 at the concrete fragment "#doesnotexist". -/
theorem C7_initial_route_fallback_witness :
    (handleInitialRoute (initialState "#doesnotexist")).activeSection
        = some "home" ∧
    (handleInitialRoute (initialState "#doesnotexist")).activeNav
        = some "home" :=
  C7_initial_route_fallback "#doesnotexist" (Or.inr (by decide))

lemma count_true_map_false (l : List Bool) :
    (l.map fun _ => false).count true = 0 := by
  induction l with
  | nil => rfl
  | cons b tl ih => simpa using ih

lemma count_true_set_le (l : List Bool) (i : Nat) (h : l.count true = 0) :
    (l.set i true).count true ≤ 1 := by
  induction l generalizing i with
  | nil => simp [List.set]
  | cons b tl ih =>
    have hb : b = false := by
      cases b
      · rfl
      · simp [List.count_cons] at h
    subst hb
    have htl : tl.count true = 0 := by
      simpa [List.count_cons] using h
    cases i with
    | zero =>
      simp [List.set, List.count_cons, htl]
    | succ j =>
      simpa [List.set, List.count_cons] using ih j htl

lemma faqClick_openCount_le (st : List Bool) (i : Nat) :
    openCount (faqClick st i) ≤ 1 := by
  unfold openCount faqClick
  by_cases h : st.getD i false = true
  · rw [if_pos h, count_true_map_false]
    exact Nat.zero_le 1
  · rw [if_neg h]
    exact count_true_set_le _ i (count_true_map_false st)

/-- C8: for every sequence of FAQ-item activations from a state with at
most one open item, at most one FAQ item is open at every observed instant
(each single activation leaves at most one open, from any state), and
activating an already-open item closes every item. -/
theorem C8_faq_at_most_one_open (init : List Bool) (clicks : List Nat)
    (st : List Bool) (i : Nat) (hinit : openCount init ≤ 1) :
    openCount (clicks.foldl faqClick init) ≤ 1 ∧
    openCount (faqClick st i) ≤ 1 ∧
    (st.getD i false = true → faqClick st i = st.map fun _ => false) := by
  refine ⟨?_, faqClick_openCount_le st i, ?_⟩
  · induction clicks generalizing init with
    | nil => exact hinit
    | cons c cs ih =>
      exact ih (faqClick init c) (faqClick_openCount_le init c)
  · intro hopen
    unfold faqClick
    rw [if_pos hopen]

/-- Witness for C8: three items, a click sequence that reopens and switches
items, and a direct activation of an already-open item. -/
theorem C8_faq_at_most_one_open_witness :
    openCount ([0, 1, 1, 2].foldl faqClick [false, false, false]) ≤ 1 ∧
    openCount (faqClick [false, true, false] 1) ≤ 1 ∧
    ([false, true, false].getD 1 false = true →
      faqClick [false, true, false] 1
        = [false, true, false].map fun _ => false) :=
  C8_faq_at_most_one_open [false, false, false] [0, 1, 1, 2]
    [false, true, false] 1 (by decide)

/-- Counterexample to C6 as stated: from the initial-load entry (whose
history state is null, since no pushState created it), navigating to "faq"
and then going back fires popstate with a null state, which the handler
ignores — the previously active home section is not restored; the faq
section stays active. -/
theorem C6_counterexample :
    (navigateToSection (handleInitialRoute (initialState "")) "faq").current.hash
        = "#faq" ∧
    (goBack (navigateToSection (handleInitialRoute (initialState "")) "faq")).activeSection
        = some "faq" ∧
    (goBack (navigateToSection (handleInitialRoute (initialState "")) "faq")).activeSection
        ≠ some "home" := by
  decide

/-- C6 as amended: after navigating to a section `p` of the fixed set and
then to "faq", the URL fragment is "#faq" and the navigation pushed a new
history entry; browser-back then restores section `p` as the active one
without adding a new entry — provided the prior entry was created by
`navigateToSection` (it carries `{ section: p }` state). Backing into the
initial-load entry, whose state is null, leaves the displayed section
unchanged. -/
theorem C6_navigate_faq_back (st : SPAState) (p : String) (hp : p ∈ sections) :
    (navigateToSection (navigateToSection st p) "faq").current.hash = "#faq" ∧
    (navigateToSection (navigateToSection st p) "faq").back
      = (navigateToSection st p).back ++ [(navigateToSection st p).current] ∧
    (goBack (navigateToSection (navigateToSection st p) "faq")).activeSection
      = some p ∧
    (goBack (navigateToSection (navigateToSection st p) "faq")).back
      = (navigateToSection st p).back ∧
    (goBack (navigateToSection (navigateToSection st p) "faq")).current
      = (navigateToSection st p).current := by
  have hfaq : ("faq" : String) ∈ sections := by decide
  have hpd : p ∈ domSections := by simpa [domSections] using hp
  have hpcases : p = "home" ∨ p = "features" ∨ p = "faq" ∨ p = "download" := by
    simpa [sections] using hp
  have hpne : ¬(p = "") := by
    rcases hpcases with rfl | rfl | rfl | rfl <;> decide
  have hcur : (navigateToSection st p).current = ⟨"#" ++ p, some p⟩ := by
    simp [navigateToSection, updateActiveNav, updateURL, showSection, hp]
  have h2 : navigateToSection (navigateToSection st p) "faq" =
      { currentSection := "faq",
        activeSection := some "faq",
        activeNav := some "faq",
        back := (navigateToSection st p).back ++ [(navigateToSection st p).current],
        current := ⟨"#faq", some "faq"⟩,
        fwd := [] } := by
    simp [navigateToSection, updateActiveNav, updateURL, showSection,
      domSections, sections]
  rw [h2]
  refine ⟨rfl, rfl, ?_⟩
  rw [hcur]
  simp only [goBack, List.getLast?_concat, List.dropLast_concat]
  rw [if_neg hpne]
  simp [showSection, hpd]

lemma downloadFlow_error (env : Env) (dt msg e : String)
    (h : (getDownloadUrl env dt).2 = Except.error e) :
    downloadFlow env dt msg =
      Event.busy true ::
        ((getDownloadUrl env dt).1
          ++ [Event.notif msg "error", Event.busy false]) := by
  simp only [downloadFlow]
  rw [h]
  simp

lemma downloadFlow_head (env : Env) (dt msg : String) :
    (downloadFlow env dt msg).head? = some (Event.busy true) := by
  simp [downloadFlow]

lemma getLast_cons_concat (a b : Event) (L : List Event) :
    (a :: (L ++ [b])).getLast? = some b := by
  rw [← List.cons_append]
  exact List.getLast?_concat _

lemma downloadFlow_getLast (env : Env) (dt msg : String) :
    (downloadFlow env dt msg).getLast? = some (Event.busy false) := by
  simp only [downloadFlow]
  exact getLast_cons_concat _ _ _

/-- Counterexample to C1 as stated: on the generic auto-detected entry
point, a transport failure (network error on hop 1) is surfaced with the
entry point's own fixed message ("sorry, the site has expired, renew
quickly"), not the "download busy, error code: 500" message the claim
asserts for every download flow. -/
theorem C1_counterexample :
    (getDownloadUrl envAllFail (detectDeviceType envAllFail)).2
        = Except.error "TypeError: Failed to fetch" ∧
    Event.notif genericBusyMsg "error" ∉ handleOriginalDownload envAllFail ∧
    Event.notif expiredSiteMsg "error" ∈ handleOriginalDownload envAllFail := by
  decide

/-- C1 as amended: every thrown failure of the resolution flow
(TransportError or ResolutionError) collapses into one fixed generic error
notification per entry point — "download busy, error code: 500" on the
explicit pc/mobile entry points, and "sorry, the site has expired, renew
quickly" on the generic auto-detected entry point — and these are distinct
from the server-signaled path, which shows the server's msg verbatim (the
trace equality shows the single notification carries exactly the fixed
message). -/
theorem C1_generic_error_messages (env : Env) (d e1 e2 : String)
    (h1 : (getDownloadUrl env d).2 = Except.error e1)
    (h2 : (getDownloadUrl env (detectDeviceType env)).2 = Except.error e2) :
    handleDownload env d
      = Event.busy true :: ((getDownloadUrl env d).1
          ++ [Event.notif genericBusyMsg "error", Event.busy false]) ∧
    handleOriginalDownload env
      = Event.busy true :: ((getDownloadUrl env (detectDeviceType env)).1
          ++ [Event.notif expiredSiteMsg "error", Event.busy false]) ∧
    genericBusyMsg ≠ expiredSiteMsg :=
  ⟨downloadFlow_error env d genericBusyMsg e1 h1,
   downloadFlow_error env (detectDeviceType env) expiredSiteMsg e2 h2,
   by decide⟩

/-- Witness for the amended C1 at the all-failing environment. -/
theorem C1_generic_error_messages_witness :
    handleDownload envAllFail "pc"
      = Event.busy true :: ((getDownloadUrl envAllFail "pc").1
          ++ [Event.notif genericBusyMsg "error", Event.busy false]) ∧
    handleOriginalDownload envAllFail
      = Event.busy true :: ((getDownloadUrl envAllFail (detectDeviceType envAllFail)).1
          ++ [Event.notif expiredSiteMsg "error", Event.busy false]) ∧
    genericBusyMsg ≠ expiredSiteMsg :=
  C1_generic_error_messages envAllFail "pc"
    "TypeError: Failed to fetch" "TypeError: Failed to fetch"
    (by decide) (by decide)

/-- C4: in every run of either download entry point, the busy visual state
is set as the first effect of the flow and cleared as its last effect,
whatever the environment (success, server-signaled failure, transport
failure, or protocol violation). -/
theorem C4_busy_set_and_cleared (env : Env) (d : String) :
    (handleDownload env d).head? = some (Event.busy true) ∧
    (handleDownload env d).getLast? = some (Event.busy false) ∧
    (handleOriginalDownload env).head? = some (Event.busy true) ∧
    (handleOriginalDownload env).getLast? = some (Event.busy false) :=
  ⟨downloadFlow_head env d genericBusyMsg,
   downloadFlow_getLast env d genericBusyMsg,
   downloadFlow_head env (detectDeviceType env) expiredSiteMsg,
   downloadFlow_getLast env (detectDeviceType env) expiredSiteMsg⟩

/-- C5: the public download operation never throws to its caller — both
entry points are total functions into event traces (the embedding gives
them type `List Event`, not `Except`), and whenever the inner resolution
raises (any transport failure or protocol violation, on either hop), the
flow boundary converts it into an error notification and still settles
(the busy state is cleared as the final effect). -/
theorem C5_failures_become_notifications (env : Env) (d e1 e2 : String)
    (h1 : (getDownloadUrl env d).2 = Except.error e1)
    (h2 : (getDownloadUrl env (detectDeviceType env)).2 = Except.error e2) :
    Event.notif genericBusyMsg "error" ∈ handleDownload env d ∧
    (handleDownload env d).getLast? = some (Event.busy false) ∧
    Event.notif expiredSiteMsg "error" ∈ handleOriginalDownload env ∧
    (handleOriginalDownload env).getLast? = some (Event.busy false) := by
  refine ⟨?_, downloadFlow_getLast env d genericBusyMsg, ?_,
    downloadFlow_getLast env (detectDeviceType env) expiredSiteMsg⟩
  · have h := downloadFlow_error env d genericBusyMsg e1 h1
    show Event.notif genericBusyMsg "error" ∈ downloadFlow env d genericBusyMsg
    rw [h]
    simp
  · have h := downloadFlow_error env (detectDeviceType env) expiredSiteMsg e2 h2
    show Event.notif expiredSiteMsg "error"
        ∈ downloadFlow env (detectDeviceType env) expiredSiteMsg
    rw [h]
    simp

/-- Witness for C5 at the all-failing environment with device type
"mobile". -/
theorem C5_failures_become_notifications_witness :
    Event.notif genericBusyMsg "error" ∈ handleDownload envAllFail "mobile" ∧
    (handleDownload envAllFail "mobile").getLast? = some (Event.busy false) ∧
    Event.notif expiredSiteMsg "error" ∈ handleOriginalDownload envAllFail ∧
    (handleOriginalDownload envAllFail).getLast? = some (Event.busy false) :=
  C5_failures_become_notifications envAllFail "mobile"
    "TypeError: Failed to fetch" "TypeError: Failed to fetch"
    (by decide) (by decide)

/-- Counterexample to C2 as stated: a hop-1 body that lacks webhost and
carries both a code field and a msg field (code's value being the falsy 0)
does not end the flow with the msg notification — `data1.code && data1.msg`
tests truthiness, so the code throws the protocol-violation error and the
generic message is shown instead of "m". -/
theorem C2_counterexample :
    (bodyCodeZero.webhost = none ∧ bodyCodeZero.code ≠ none ∧
      bodyCodeZero.msg ≠ none) ∧
    envCodeZero.fetch apiBaseUrl [("type", "pc"), ("site", "sigua.io")]
        = FetchResult.success 200 (some bodyCodeZero) ∧
    (getDownloadUrl envCodeZero "pc").2 = Except.error noValidAddrMsg ∧
    Event.notif "m" "error" ∉ handleDownload envCodeZero "pc" ∧
    Event.notif genericBusyMsg "error" ∈ handleDownload envCodeZero "pc" := by
  refine ⟨by decide, rfl, rfl, by decide, by decide⟩

/-- C2 as amended: for every hop-1 response that is 2xx, parses as JSON,
has no truthy webhost, and carries truthy code and msg fields (JavaScript
truthiness — e.g. code 0 or msg "" instead take the protocol-violation
path), the flow ends after hop 1 with an error notification carrying msg
verbatim, hop 2 is never issued (the trace holds exactly one request
event), no exception propagates (the result is `.ok`), and resolution
yields no URL (`none`), so no download is triggered. -/
theorem C2_server_signaled_failure (env : Env) (d : String) (status : Nat)
    (body : JsonBody)
    (hf : env.fetch apiBaseUrl [("type", d), ("site", env.hostname)]
        = FetchResult.success status (some body))
    (hok : respOk status = true)
    (hweb : truthyOpt body.webhost = false)
    (hcode : truthyOpt body.code = true)
    (hmsg : truthyOpt body.msg = true) :
    getDownloadUrl env d =
      ([Event.request apiBaseUrl [("type", d), ("site", env.hostname)],
        Event.notif (jsToStringOpt body.msg) "error"], Except.ok none) ∧
    handleDownload env d =
      [Event.busy true,
       Event.request apiBaseUrl [("type", d), ("site", env.hostname)],
       Event.notif (jsToStringOpt body.msg) "error",
       Event.busy false] := by
  have hg : getDownloadUrl env d =
      ([Event.request apiBaseUrl [("type", d), ("site", env.hostname)],
        Event.notif (jsToStringOpt body.msg) "error"], Except.ok none) := by
    simp only [getDownloadUrl]
    rw [hf]
    simp [hok, hweb, hcode, hmsg]
  refine ⟨hg, ?_⟩
  simp [handleDownload, downloadFlow, hg]

/-- Witness for the amended C2 at a concrete server-signaled failure. -/
theorem C2_server_signaled_failure_witness :
    getDownloadUrl envServerMsg "pc" =
      ([Event.request apiBaseUrl [("type", "pc"), ("site", envServerMsg.hostname)],
        Event.notif (jsToStringOpt (some (.vStr "站点维护中"))) "error"],
       Except.ok none) ∧
    handleDownload envServerMsg "pc" =
      [Event.busy true,
       Event.request apiBaseUrl [("type", "pc"), ("site", envServerMsg.hostname)],
       Event.notif (jsToStringOpt (some (.vStr "站点维护中"))) "error",
       Event.busy false] :=
  C2_server_signaled_failure envServerMsg "pc" 200
    { code := some (.vNum 1), msg := some (.vStr "站点维护中") }
    rfl rfl rfl rfl rfl

lemma getDownloadUrl_fst_shape (env : Env) (d : String) :
    ∃ rest, (getDownloadUrl env d).1
        = Event.request apiBaseUrl [("type", d), ("site", env.hostname)] :: rest
      ∧ ∀ u q, Event.request u q ∈ rest → q = ([] : List (String × String)) := by
  simp only [getDownloadUrl]
  repeat' split
  all_goals refine ⟨_, rfl, ?_⟩
  all_goals intro u q hmem
  all_goals simp_all

lemma downloadFlow_request_mem (env : Env) (dt msg u : String)
    (q : List (String × String))
    (hm : Event.request u q ∈ downloadFlow env dt msg) :
    Event.request u q ∈ (getDownloadUrl env dt).1 := by
  simp only [downloadFlow, List.mem_cons, List.mem_append,
    List.mem_singleton] at hm
  rcases hm with h | ((hm | hm) | h)
  · exact absurd h (by simp)
  · exact hm
  · exfalso
    rcases hv : (getDownloadUrl env dt).2 with e | o
    · rw [hv] at hm
      simp at hm
    · rcases o with _ | v
      · rw [hv] at hm
        simp at hm
      · rw [hv] at hm
        rcases ht : v.truthy <;> simp [ht, downloadFile] at hm
  · exact absurd h (by simp)

/-- C3: for every valid device type d, the flow issues the hop-1 request to
the fixed base endpoint with query parameter `type` equal to exactly d and
`site` equal to the current hostname, and no request of the whole flow ever
carries any other `type` value (hop 2 carries no parameters at all). -/
theorem C3_hop1_type_param (env : Env) (d u v : String)
    (q : List (String × String))
    (_hd : d = "pc" ∨ d = "mobile")
    (hm : Event.request u q ∈ handleDownload env d)
    (hv : ("type", v) ∈ q) :
    Event.request apiBaseUrl [("type", d), ("site", env.hostname)]
        ∈ handleDownload env d ∧ v = d := by
  obtain ⟨rest, hsh, hrest⟩ := getDownloadUrl_fst_shape env d
  constructor
  · show _ ∈ downloadFlow env d genericBusyMsg
    simp only [downloadFlow]
    rw [hsh]
    simp
  · have hfst : Event.request u q ∈ (getDownloadUrl env d).1 :=
      downloadFlow_request_mem env d genericBusyMsg u q hm
    rw [hsh] at hfst
    rcases List.mem_cons.mp hfst with heq | hr
    · injection heq with h1 h2
      subst h2
      rcases List.mem_cons.mp hv with hp | hp
      · exact ((Prod.mk.injEq _ _ _ _).mp hp).2
      · rcases List.mem_cons.mp hp with hp2 | hp2
        · exact absurd ((Prod.mk.injEq _ _ _ _).mp hp2).1 (by decide)
        · simp at hp2
    · have hq : q = [] := hrest u q hr
      subst hq
      simp at hv

/-- Witness for C3 at the all-failing environment and device type "pc". -/
theorem C3_hop1_type_param_witness :
    Event.request apiBaseUrl [("type", "pc"), ("site", envAllFail.hostname)]
        ∈ handleDownload envAllFail "pc" ∧ "pc" = "pc" :=
  C3_hop1_type_param envAllFail "pc" apiBaseUrl "pc"
    [("type", "pc"), ("site", "sigua.io")]
    (Or.inl rfl) (by decide) (by decide)

/-- Witness for the amended C6: from the post-initial-load state, navigate
to "home" and then to "faq"; back restores "home". -/
theorem C6_navigate_faq_back_witness :
    (navigateToSection (navigateToSection (initialState "") "home") "faq").current.hash
        = "#faq" ∧
    (navigateToSection (navigateToSection (initialState "") "home") "faq").back
      = (navigateToSection (initialState "") "home").back
          ++ [(navigateToSection (initialState "") "home").current] ∧
    (goBack (navigateToSection (navigateToSection (initialState "") "home") "faq")).activeSection
      = some "home" ∧
    (goBack (navigateToSection (navigateToSection (initialState "") "home") "faq")).back
      = (navigateToSection (initialState "") "home").back ∧
    (goBack (navigateToSection (navigateToSection (initialState "") "home") "faq")).current
      = (navigateToSection (initialState "") "home").current :=
  C6_navigate_faq_back (initialState "") "home" (by decide)
